import Mathlib

/-!
# Verification of the Engify multi-agent workflow and memory services

A shallow embedding, in Lean 4, of the parts of the Engify-AI-App repository
that the specification's claims are about:

* the Engineering-Leadership / Scrum-Meeting workflow
  (`src/lambda/agents/scrum_meeting.py`),
* the Article-Generation workflow (`src/lambda/agents/article_generation.py`),
* the Think-Tank workflow (`src/mcp-server/think_tank/workflow.py`),
* the self-hosted memory service (`src/services/memory-mcp/src/*.py`),
* the AI Slop Detector (`src/lambda/lib/ai_slop_detector.py`).

Language-model invocations are modelled by an oracle `respond : Nat → String`
giving the text of the k-th model call of a run; every node function threads a
call counter, so "the function makes no model call" is expressed as "the call
counter is unchanged".  Workflow state dictionaries become Lean structures with
the source's field names.
-/

namespace Leadership

/-- `AIIntegrationState` from `src/lambda/agents/scrum_meeting.py` (this single
definition is both the Engineering-Leadership and the Scrum-Meeting workflow of
the spec).  The list-valued summary fields are carried verbatim. -/
structure AIIntegrationState where
  situation : String
  context : String
  rag_context : String
  current_topic : String
  director_notes : String
  manager_notes : String
  tech_lead_notes : String
  architect_notes : String
  recommendations : List String
  implementation_plan : List String
  risks_and_mitigations : List String
  turn_count : Nat
  max_turns : Nat
  deriving Repr, DecidableEq

/-- `director_turn`: ceiling short-circuit, one model call, append the response
to `director_notes` separated by a newline, increment `turn_count`. -/
def director_turn (respond : Nat → String) (sc : AIIntegrationState × Nat) :
    AIIntegrationState × Nat :=
  let (s, calls) := sc
  if s.turn_count ≥ s.max_turns then (s, calls)
  else
    ({ s with
        director_notes := s.director_notes ++ "\n" ++ respond calls,
        turn_count := s.turn_count + 1 }, calls + 1)

/-- `manager_turn` from `scrum_meeting.py`. -/
def manager_turn (respond : Nat → String) (sc : AIIntegrationState × Nat) :
    AIIntegrationState × Nat :=
  let (s, calls) := sc
  if s.turn_count ≥ s.max_turns then (s, calls)
  else
    ({ s with
        manager_notes := s.manager_notes ++ "\n" ++ respond calls,
        turn_count := s.turn_count + 1 }, calls + 1)

/-- `tech_lead_turn` from `scrum_meeting.py`. -/
def tech_lead_turn (respond : Nat → String) (sc : AIIntegrationState × Nat) :
    AIIntegrationState × Nat :=
  let (s, calls) := sc
  if s.turn_count ≥ s.max_turns then (s, calls)
  else
    ({ s with
        tech_lead_notes := s.tech_lead_notes ++ "\n" ++ respond calls,
        turn_count := s.turn_count + 1 }, calls + 1)

/-- `architect_turn` from `scrum_meeting.py` (the "extract recommendations"
block of the source inspects the response and then does nothing: `pass`). -/
def architect_turn (respond : Nat → String) (sc : AIIntegrationState × Nat) :
    AIIntegrationState × Nat :=
  let (s, calls) := sc
  if s.turn_count ≥ s.max_turns then (s, calls)
  else
    ({ s with
        architect_notes := s.architect_notes ++ "\n" ++ respond calls,
        turn_count := s.turn_count + 1 }, calls + 1)

/-- `should_continue` from `scrum_meeting.py`: `"end"` when the turn ceiling is
reached, or when at least 8 turns have elapsed and `current_topic` is truthy
(a non-empty string), else `"continue"`. -/
def should_continue (s : AIIntegrationState) : String :=
  if s.turn_count ≥ s.max_turns then "end"
  else if s.turn_count ≥ 8 ∧ s.current_topic ≠ "" then "end"
  else "continue"

end Leadership

namespace ArticleGen

/-- `ArticleState` from `src/lambda/agents/article_generation.py`. -/
structure ArticleState where
  research_data : String
  target_keywords : List String
  article_type : String
  article_title : String
  article_structure : String
  technical_content : String
  community_content : String
  product_content : String
  seo_content : String
  final_article : String
  turn_count : Nat
  max_turns : Nat
  deriving Repr, DecidableEq

/-- `technical_writer_turn`: ceiling short-circuit, one model call whose
response becomes `article_structure`, increment `turn_count`. -/
def technical_writer_turn (respond : Nat → String) (sc : ArticleState × Nat) :
    ArticleState × Nat :=
  let (s, calls) := sc
  if s.turn_count ≥ s.max_turns then (s, calls)
  else
    ({ s with article_structure := respond calls,
              turn_count := s.turn_count + 1 }, calls + 1)

/-- `developer_advocate_turn` from `article_generation.py`. -/
def developer_advocate_turn (respond : Nat → String) (sc : ArticleState × Nat) :
    ArticleState × Nat :=
  let (s, calls) := sc
  if s.turn_count ≥ s.max_turns then (s, calls)
  else
    ({ s with technical_content := respond calls,
              turn_count := s.turn_count + 1 }, calls + 1)

/-- `community_manager_turn` from `article_generation.py`. -/
def community_manager_turn (respond : Nat → String) (sc : ArticleState × Nat) :
    ArticleState × Nat :=
  let (s, calls) := sc
  if s.turn_count ≥ s.max_turns then (s, calls)
  else
    ({ s with community_content := respond calls,
              turn_count := s.turn_count + 1 }, calls + 1)

/-- `product_marketer_turn` from `article_generation.py`. -/
def product_marketer_turn (respond : Nat → String) (sc : ArticleState × Nat) :
    ArticleState × Nat :=
  let (s, calls) := sc
  if s.turn_count ≥ s.max_turns then (s, calls)
  else
    ({ s with product_content := respond calls,
              turn_count := s.turn_count + 1 }, calls + 1)

/-- `seo_specialist_turn` from `article_generation.py`. -/
def seo_specialist_turn (respond : Nat → String) (sc : ArticleState × Nat) :
    ArticleState × Nat :=
  let (s, calls) := sc
  if s.turn_count ≥ s.max_turns then (s, calls)
  else
    ({ s with seo_content := respond calls,
              turn_count := s.turn_count + 1 }, calls + 1)

/-- `assemble_article` from `article_generation.py`: note that, unlike the five
role turns, the source has **no** ceiling check and does **not** increment
`turn_count`; it makes one model call unconditionally and stores the response
in `final_article`. -/
def assemble_article (respond : Nat → String) (sc : ArticleState × Nat) :
    ArticleState × Nat :=
  let (s, calls) := sc
  ({ s with final_article := respond calls }, calls + 1)

/-- The compiled graph: `technical_writer → developer_advocate →
community_manager → product_marketer → seo_specialist → assemble → END`,
started with zero model calls made. -/
def runArticleWorkflow (respond : Nat → String) (s : ArticleState) :
    ArticleState × Nat :=
  assemble_article respond
    (seo_specialist_turn respond
      (product_marketer_turn respond
        (community_manager_turn respond
          (developer_advocate_turn respond
            (technical_writer_turn respond (s, 0))))))

/-- A concrete initial state (the shape built by
`src/lambda/test_article_generation.py`): all accumulators empty,
`turn_count = 0`, `max_turns = 6`. -/
def sampleInitialState : ArticleState :=
  { research_data := "research", target_keywords := ["cursor", "windsurf"],
    article_type := "comparison", article_title := "Cursor vs Windsurf",
    article_structure := "", technical_content := "", community_content := "",
    product_content := "", seo_content := "", final_article := "",
    turn_count := 0, max_turns := 6 }

end ArticleGen

namespace ThinkTank

/-- `ThinkTankState` from `src/mcp-server/think_tank/workflow.py`.  Challenge
records (`{"role": ..., "challenge": ...}` dictionaries) are pairs; the
`recommendations`/`action_items` dictionaries and timestamps are carried as
opaque strings / integers, which is enough for every claim about them
(they are only ever set to the empty list). -/
structure ThinkTankState where
  situation : String
  context : String
  user_id : String
  scrum_master_analysis : String
  product_manager_analysis : String
  vp_eng_analysis : String
  tech_lead_analysis : String
  architect_analysis : String
  challenges : List (String × String)
  agreements : List String
  concerns : List String
  blockers : List String
  recommendations : List String
  action_items : List String
  consensus_reached : Bool
  final_recommendation : String
  round_count : Nat
  max_rounds : Nat
  consensus_threshold : ℚ
  deriving Repr, DecidableEq

/-- `scrum_master_turn`: ceiling short-circuit, one model call, store the
response as `scrum_master_analysis`, increment `round_count`.  (The Mem0
memory retrieval of the source only affects the prompt text, which the
response oracle already ranges over.) -/
def scrum_master_turn (respond : Nat → String) (sc : ThinkTankState × Nat) :
    ThinkTankState × Nat :=
  let (s, calls) := sc
  if s.round_count ≥ s.max_rounds then (s, calls)
  else
    ({ s with scrum_master_analysis := respond calls,
              round_count := s.round_count + 1 }, calls + 1)

/-- `product_manager_turn` from `workflow.py`. -/
def product_manager_turn (respond : Nat → String) (sc : ThinkTankState × Nat) :
    ThinkTankState × Nat :=
  let (s, calls) := sc
  if s.round_count ≥ s.max_rounds then (s, calls)
  else
    ({ s with product_manager_analysis := respond calls,
              round_count := s.round_count + 1 }, calls + 1)

/-- `vp_eng_turn` from `workflow.py`. -/
def vp_eng_turn (respond : Nat → String) (sc : ThinkTankState × Nat) :
    ThinkTankState × Nat :=
  let (s, calls) := sc
  if s.round_count ≥ s.max_rounds then (s, calls)
  else
    ({ s with vp_eng_analysis := respond calls,
              round_count := s.round_count + 1 }, calls + 1)

/-- `tech_lead_turn` from `workflow.py`. -/
def tech_lead_turn (respond : Nat → String) (sc : ThinkTankState × Nat) :
    ThinkTankState × Nat :=
  let (s, calls) := sc
  if s.round_count ≥ s.max_rounds then (s, calls)
  else
    ({ s with tech_lead_analysis := respond calls,
              round_count := s.round_count + 1 }, calls + 1)

/-- `architect_turn` from `workflow.py`. -/
def architect_turn (respond : Nat → String) (sc : ThinkTankState × Nat) :
    ThinkTankState × Nat :=
  let (s, calls) := sc
  if s.round_count ≥ s.max_rounds then (s, calls)
  else
    ({ s with architect_analysis := respond calls,
              round_count := s.round_count + 1 }, calls + 1)

/-- `challenge_round` from `workflow.py`: ceiling short-circuit; otherwise one
model call per role, collecting `(role, challenge)` records in the fixed role
order, and a single increment of `round_count`. -/
def challenge_round (respond : Nat → String) (sc : ThinkTankState × Nat) :
    ThinkTankState × Nat :=
  let (s, calls) := sc
  if s.round_count ≥ s.max_rounds then (s, calls)
  else
    ({ s with
        challenges :=
          [("Scrum Master", respond calls),
           ("Product Manager", respond (calls + 1)),
           ("VP of Engineering", respond (calls + 2)),
           ("Tech Lead", respond (calls + 3)),
           ("Architect", respond (calls + 4))],
        round_count := s.round_count + 1 }, calls + 5)

/-- `consensus_building` from `workflow.py`: **no** ceiling check; one model
call; the structured lists are set to the fresh local empty lists, the whole
response text becomes `final_recommendation`, `consensus_reached` is computed
from those local lists, and `round_count` is incremented. -/
def consensus_building (respond : Nat → String) (sc : ThinkTankState × Nat) :
    ThinkTankState × Nat :=
  let (s, calls) := sc
  let content := respond calls
  let agreements : List String := []
  let concerns : List String := []
  let blockers : List String := []
  let recommendations : List String := []
  let action_items : List String := []
  let final_recommendation := content
  ({ s with
      agreements := agreements,
      concerns := concerns,
      blockers := blockers,
      recommendations := recommendations,
      action_items := action_items,
      final_recommendation := final_recommendation,
      consensus_reached := blockers.length == 0 && agreements.length > 0,
      round_count := s.round_count + 1 }, calls + 1)

/-- `should_continue` from `workflow.py` (Think-Tank variant). -/
def should_continue (s : ThinkTankState) : String :=
  if s.round_count ≥ s.max_rounds then "consensus"
  else if s.consensus_reached then "consensus"
  else if s.round_count ≥ 2 ∧ s.blockers.length > 0 then "need_verification"
  else "continue"

/-- One pass of the compiled graph: `scrum_master → product_manager → vp_eng →
tech_lead → architect → challenge_round → consensus_building`. -/
def runThinkTankPass (respond : Nat → String) (sc : ThinkTankState × Nat) :
    ThinkTankState × Nat :=
  consensus_building respond
    (challenge_round respond
      (architect_turn respond
        (tech_lead_turn respond
          (vp_eng_turn respond
            (product_manager_turn respond
              (scrum_master_turn respond sc))))))

/-- A concrete initial state with `round_count = 0` and the fixed
`max_rounds = 3` of `src/mcp-server/think_tank/test_think_tank.py`. -/
def sampleInitialState : ThinkTankState :=
  { situation := "Choose a database", context := "Startup", user_id := "user-1",
    scrum_master_analysis := "", product_manager_analysis := "",
    vp_eng_analysis := "", tech_lead_analysis := "", architect_analysis := "",
    challenges := [], agreements := [], concerns := [], blockers := [],
    recommendations := [], action_items := [], consensus_reached := false,
    final_recommendation := "", round_count := 0, max_rounds := 3,
    consensus_threshold := 7/10 }

end ThinkTank

/-- The ceiling/increment contract shared by every role-turn node function:
at or above the ceiling the function is the identity and makes no model call;
below it, it increments the shared counter by exactly 1 and makes exactly one
model call. -/
def RoleTurnOK {σ : Type} (counter ceil : σ → Nat)
    (f : (Nat → String) → σ × Nat → σ × Nat) : Prop :=
  ∀ (respond : Nat → String) (s : σ) (c : Nat),
    (counter s ≥ ceil s → f respond (s, c) = (s, c)) ∧
    (counter s < ceil s →
      counter (f respond (s, c)).1 = counter s + 1 ∧ (f respond (s, c)).2 = c + 1)

namespace MemoryService

/-- `TokenClaims` from `src/services/memory-mcp/src/auth.py`. -/
structure TokenClaims where
  sub : String
  org_id : String
  plan : String
  role : String
  scopes : List String
  workspace_slug : Option String
  topic : Option String
  exp : Option Int
  deriving Repr, DecidableEq

/-- The `workspace` property: `self.workspace_slug or "default"` — Python
truthiness, so both `None` and the empty string fall back to `"default"`. -/
def TokenClaims.workspace (c : TokenClaims) : String :=
  match c.workspace_slug with
  | none => "default"
  | some s => if s = "" then "default" else s

/-- A FastAPI `HTTPException` (status code and detail). -/
structure HTTPError where
  status_code : Nat
  detail : String
  deriving Repr, DecidableEq

/-- `TokenClaims.ensure_scope`: raises 403 naming the missing scope. -/
def TokenClaims.ensure_scope (c : TokenClaims) (required : String) :
    Except HTTPError Unit :=
  if required ∈ c.scopes then Except.ok ()
  else Except.error ⟨403, "Missing required scope: " ++ required⟩

/-- `AuthContext` from `auth.py` (the issue timestamp as an integer clock). -/
structure AuthContext where
  claims : TokenClaims
  issued_at : Int
  deriving Repr, DecidableEq

/-- `decode_jwt` from `auth.py`.  The outcome of the external `jose`
signature check (`jwt.decode`) plus the pydantic shape validation is modelled
as an oracle input: `none` means a `JWTError`/`ValidationError` was raised
(bad signature or shape), `some claims` means the token is correctly signed
with the configured secret and structurally valid.  Timestamps are integer
epoch seconds; the expiry comparison `expires <= now` is taken verbatim from
the source.  Note the expiry `HTTPException` is raised inside the `try:` block
but is not a `JWTError`/`ValidationError`, so it propagates unchanged. -/
def decode_jwt (decoded : Option TokenClaims) (now : Int) :
    Except HTTPError AuthContext :=
  match decoded with
  | none => Except.error ⟨401, "Invalid token"⟩
  | some claims =>
    match claims.exp with
    | some e =>
        if e ≤ now then Except.error ⟨401, "Token has expired"⟩
        else Except.ok ⟨claims, now⟩
    | none => Except.ok ⟨claims, now⟩

/-- `build_standard_tags` from `auth.py`: `org:`/`user:`/`workspace:` tags,
plus a `topic:` tag when `topic` is truthy (a non-empty string). -/
def build_standard_tags (claims : TokenClaims) (topic : Option String) :
    List String :=
  let base_tags := ["org:" ++ claims.org_id, "user:" ++ claims.sub,
                    "workspace:" ++ claims.workspace]
  match topic with
  | some t => if t = "" then base_tags else base_tags ++ ["topic:" ++ t]
  | none => base_tags

/-- The loop body of `merge_tags`: skip empty tags, skip tags without a `:`
separator, skip tags already merged, otherwise keep in first-occurrence order.
(The source's `seen` set always holds exactly the merged elements, so the
membership test is against the accumulator.) -/
def mergeTagsAux : List String → List String → List String
  | [], merged => merged.reverse
  | tag :: rest, merged =>
    if tag = "" then mergeTagsAux rest merged
    else if ':' ∉ tag.data then mergeTagsAux rest merged
    else if tag ∈ merged then mergeTagsAux rest merged
    else mergeTagsAux rest (tag :: merged)

/-- `merge_tags` from `auth.py`. -/
def merge_tags (standard_tags additional_tags : List String) : List String :=
  mergeTagsAux (standard_tags ++ additional_tags) []

/-- `MemoryWriteRequest` from `src/services/memory-mcp/src/schemas.py`
(metadata as an opaque key/value association list). -/
structure MemoryWriteRequest where
  content : String
  metadata : Option (List (String × String))
  tags : Option (List String)
  topic : Option String
  deriving Repr, DecidableEq

/-- `MemoryRecord` from `src/services/memory-mcp/src/database.py`. -/
structure MemoryRecord where
  memory_id : String
  org_id : String
  user_id : String
  workspace : String
  topic : Option String
  content : String
  metadata : List (String × String)
  tags : List String
  created_at : Int
  updated_at : Int
  deriving Repr, DecidableEq

/-- `MemoryRepository.insert_memory`: one table, modelled as the list of rows
in insertion order; created and updated timestamps are both `now`; returns the
materialized record and the new table. -/
def insert_memory (db : List MemoryRecord)
    (memory_id org_id user_id workspace : String) (topic : Option String)
    (content : String) (metadata : Option (List (String × String)))
    (tags : List String) (now : Int) : MemoryRecord × List MemoryRecord :=
  let record : MemoryRecord :=
    { memory_id := memory_id, org_id := org_id, user_id := user_id,
      workspace := workspace, topic := topic, content := content,
      metadata := metadata.getD [], tags := tags,
      created_at := now, updated_at := now }
  (record, db ++ [record])

/-- `MemoryRepository.get_memory`: `SELECT * FROM memories WHERE id = ? AND
org_id = ? AND workspace = ?` with `fetchone` — the first row matching all
three columns, if any. -/
def get_memory (db : List MemoryRecord) (org_id workspace memory_id : String) :
    Option MemoryRecord :=
  db.find? (fun r =>
    r.memory_id == memory_id && r.org_id == org_id && r.workspace == workspace)

/-- Python `a or b` on optional strings: `b` when `a` is `None` or empty. -/
def pyOrStr : Option String → Option String → Option String
  | some t, b => if t = "" then b else some t
  | none, b => b

/-- `create_memory` from `src/services/memory-mcp/src/app.py`: enforce the
`memory.write` scope, resolve the topic as `payload.topic or claims.topic`,
build and merge tags, insert a record under the caller's partition.  The
generated uuid and the clock are explicit parameters. -/
def create_memory (payload : MemoryWriteRequest) (auth : AuthContext)
    (db : List MemoryRecord) (new_id : String) (now : Int) :
    Except HTTPError (MemoryRecord × List MemoryRecord) :=
  match auth.claims.ensure_scope "memory.write" with
  | Except.error e => Except.error e
  | Except.ok _ =>
    let topic := pyOrStr payload.topic auth.claims.topic
    let standard_tags := build_standard_tags auth.claims topic
    let merged_tags := merge_tags standard_tags (payload.tags.getD [])
    Except.ok (insert_memory db new_id auth.claims.org_id auth.claims.sub
      auth.claims.workspace topic payload.content payload.metadata
      merged_tags now)

/-- `get_memory` endpoint from `app.py`: enforce `memory.read`, look the id up
inside the caller's `(org, workspace)` partition, 404 when absent. -/
def get_memory_endpoint (memory_id : String) (auth : AuthContext)
    (db : List MemoryRecord) : Except HTTPError MemoryRecord :=
  match auth.claims.ensure_scope "memory.read" with
  | Except.error e => Except.error e
  | Except.ok _ =>
    match get_memory db auth.claims.org_id auth.claims.workspace memory_id with
    | none => Except.error ⟨404, "Memory not found"⟩
    | some record => Except.ok record

end MemoryService

namespace SlopDetector

/-- Python `hay.count(pat)` on character lists: non-overlapping occurrences,
scanning left to right (the source never counts an empty pattern).  The fuel
argument, initialised to the haystack length, only makes the recursion
structural: every step consumes at least one haystack character, so the fuel
never runs out. -/
def countSubAux (pat : List Char) : Nat → List Char → Nat
  | _, [] => 0
  | 0, _ => 0
  | fuel + 1, c :: rest =>
    if pat ≠ [] ∧ pat.isPrefixOf (c :: rest) then
      1 + countSubAux pat fuel ((c :: rest).drop pat.length)
    else countSubAux pat fuel rest

/-- Python `hay.count(pat)` on character lists. -/
def countSub (pat l : List Char) : Nat := countSubAux pat l.length l

/-- Python `hay.count(pat)` for strings. -/
def pyCount (hay pat : String) : Nat := countSub pat.data hay.data

/-- Python `text.lower()` (per-character lowercasing). -/
def pyLower (s : String) : String := ⟨s.data.map Char.toLower⟩

/-- Python `pat in hay` (substring containment). -/
def pyIn (pat hay : String) : Bool := pyCount hay pat != 0

/-- Python `s.split()`: split on whitespace runs, dropping empty pieces. -/
def pyWords (s : String) : List String :=
  (s.split Char.isWhitespace).filter (fun w => w ≠ "")

/-- The fixed slop-phrase list of `detect_ai_slop` (22 phrases, in source
order). -/
def slop_phrases : List String :=
  ["delve", "delve into", "delving",
   "leverage", "leveraging",
   "utilize", "utilization",
   "robust", "seamless", "cutting-edge", "state-of-the-art",
   "revolutionary", "game-changing", "transformative",
   "it's important to note", "it should be noted",
   "in today's fast-paced world", "in this day and age",
   "at the end of the day", "first and foremost",
   "it goes without saying", "needless to say"]

/-- The slop-phrase loop: accumulate the total count and, for each phrase
with a positive count, a `(phrase, count)` breakdown entry, in list order. -/
def slopScan (text_lower : String) : Nat × List (String × Nat) :=
  slop_phrases.foldl
    (fun acc phrase =>
      let count := pyCount text_lower phrase
      if count > 0 then (acc.1 + count, acc.2 ++ [(phrase, count)]) else acc)
    (0, [])

/-- The 9 hedge words/phrases. -/
def hedges : List String :=
  ["may", "might", "could", "possibly", "generally",
   "typically", "often", "usually", "in most cases"]

/-- The 6 vague-claim phrases. -/
def vague_phrases : List String :=
  ["many experts", "studies show", "research indicates",
   "it's widely known", "it's well established", "it's commonly accepted"]

/-- The 10 personal-experience markers. -/
def personal_markers : List String :=
  ["i tried", "i tested", "in my experience", "i found",
   "we built", "we discovered", "our team", "i noticed",
   "after testing", "when i used"]

/-- The 5 generic-structure phrases. -/
def generic_patterns : List String :=
  ["there are several reasons why",
   "let's explore the key factors",
   "here are some important considerations",
   "in conclusion, it's clear that",
   "to summarize, we've discussed"]

/-- The token the source counts as an em dash (the file's literal
three-character string, a mojibake of U+2014). -/
def em_dash : String := "‚Äî"

/-- `re.split(r'[.!?]+', text)`, stripped, empty fragments discarded (a
character-level split produces extra empty pieces between consecutive
delimiters, which the non-empty filter removes, so the result coincides). -/
def sentence_list (text : String) : List String :=
  ((text.split (fun c => c == '.' || c == '!' || c == '?')).map
    String.trim).filter (fun s => s ≠ "")

/-- The `metrics` record of the detection result.  The source stores
`sentence_std_dev` (the square root of the variance, rounded); the square
root is irrational, so the embedding stores the population variance, and
every comparison `std_dev < 5` of the source appears as `variance < 25`. -/
structure SlopMetrics where
  word_count : Nat
  slop_count : Nat
  slop_phrases : List (String × Nat)
  em_dash_count : Nat
  em_dash_ratio : ℚ
  sentence_count : Nat
  avg_sentence_length : ℚ
  sentence_variance : ℚ
  hedge_count : Nat
  hedge_ratio : ℚ
  vague_count : Nat
  personal_count : Nat
  has_code : Bool
  has_numbers : Bool
  has_links : Bool
  deriving Repr, DecidableEq

/-- The detection result (scores as exact rationals). -/
structure SlopResult where
  ai_probability : ℚ
  quality_score : ℚ
  flags : List String
  recommendations : List String
  metrics : SlopMetrics
  deriving Repr, DecidableEq

/-- Python `round(q, n)` (ties differ — Python rounds half to even, `round`
here rounds half away from the floor — but no claim depends on tie
behaviour, only on monotone bounds). -/
def pyRound (q : ℚ) (n : Nat) : ℚ := (round (q * 10 ^ n) : ℚ) / 10 ^ n

/-- `detect_ai_slop` from `src/lambda/lib/ai_slop_detector.py`.  Flag and
recommendation strings keep the source's static prefixes (the interpolated
numbers are elided; only the number of flags feeds the scores). -/
def detect_ai_slop (text : String) : SlopResult :=
  let text_lower := pyLower text
  let word_count := (pyWords text).length
  let scan := slopScan text_lower
  let slop_count := scan.1
  let slop_found := scan.2
  let flags1 : List String :=
    if slop_count > 0 then ["AI slop phrases"] else []
  let recs1 : List String :=
    if slop_count > 0 then ["Remove AI slop phrases, use natural language"] else []
  let em_dash_count := pyCount text em_dash
  let em_dash_ratio : ℚ :=
    if word_count > 0 then (em_dash_count : ℚ) / ((word_count : ℚ) / 100) else 0
  let flags2 : List String :=
    if em_dash_ratio > 1 then ["Overuse of em dashes"] else []
  let recs2 : List String :=
    if em_dash_ratio > 1 then ["Replace em dashes with periods or colons"] else []
  let sentences := sentence_list text
  let sentence_lengths := sentences.map (fun s => (pyWords s).length)
  let n := sentence_lengths.length
  let variance : ℚ :=
    if n > 5 then
      let avg_length := ((sentence_lengths.map (fun x => (x : ℚ))).sum) / n
      ((sentence_lengths.map (fun x => ((x : ℚ) - avg_length) ^ 2)).sum) / n
    else 0
  let flags3 : List String :=
    if n > 5 ∧ variance < 25 then ["Uniform sentence length"] else []
  let recs3 : List String :=
    if n > 5 ∧ variance < 25 then
      ["Vary sentence length (mix short punchy + long complex)"] else []
  let hedge_count := (hedges.map (fun h => pyCount text_lower h)).sum
  let hedge_ratio : ℚ :=
    if word_count > 0 then (hedge_count : ℚ) / (word_count : ℚ) else 0
  let flags4 : List String :=
    if hedge_ratio > 0.02 then ["Excessive hedging language"] else []
  let recs4 : List String :=
    if hedge_ratio > 0.02 then ["Be more direct, reduce qualifiers"] else []
  let vague_count := (vague_phrases.map (fun p => pyCount text_lower p)).sum
  let flags5 : List String :=
    if vague_count > 2 then ["Vague claims without citations"] else []
  let recs5 : List String :=
    if vague_count > 2 then ["Add specific citations and sources"] else []
  let personal_count := (personal_markers.map (fun p => pyCount text_lower p)).sum
  let flags6 : List String :=
    if personal_count = 0 then ["No personal experience markers"] else []
  let recs6 : List String :=
    if personal_count = 0 then ["Add personal testing/experience"] else []
  let has_code := pyIn "```" text || pyIn "`" text
  let has_numbers := text.data.any Char.isDigit
  let has_links := pyIn "http" text || (pyIn "[" text && pyIn "]" text)
  let flags7 : List String :=
    (if !has_code then ["No code examples"] else []) ++
    (if !has_numbers then ["No specific numbers/data"] else []) ++
    (if !has_links then ["No citations/links"] else [])
  let recs7 : List String :=
    (if !has_code then ["Add code examples with syntax highlighting"] else []) ++
    (if !has_numbers then ["Add specific metrics, measurements, or data"] else []) ++
    (if !has_links then ["Add citations to sources (Reddit, GitHub, docs)"] else [])
  let generic_count := (generic_patterns.map (fun p => pyCount text_lower p)).sum
  let flags8 : List String :=
    if generic_count > 1 then ["Generic AI structures"] else []
  let recs8 : List String :=
    if generic_count > 1 then ["Use more direct, specific language"] else []
  let flags := flags1 ++ flags2 ++ flags3 ++ flags4 ++ flags5 ++ flags6 ++
    flags7 ++ flags8
  let recommendations := recs1 ++ recs2 ++ recs3 ++ recs4 ++ recs5 ++ recs6 ++
    recs7 ++ recs8
  let flag_weight : ℚ := (flags.length : ℚ) * 0.08
  let slop_weight : ℚ := min 0.3 ((slop_count : ℚ) * 0.02)
  let uniformity_weight : ℚ := if variance < 25 then 0.2 else 0
  let ai_probability : ℚ := min 1 (flag_weight + slop_weight + uniformity_weight)
  let quality_base : ℚ := max 0 (10 - ai_probability * 10)
  let quality_adjusted : ℚ := quality_base +
    (if personal_count > 0 then 0.5 else 0) +
    (if has_code then 0.5 else 0) +
    (if has_numbers then 0.3 else 0) +
    (if has_links then 0.3 else 0)
  let quality_score : ℚ := min 10 quality_adjusted
  { ai_probability := pyRound ai_probability 2,
    quality_score := pyRound quality_score 1,
    flags := flags,
    recommendations := recommendations,
    metrics :=
      { word_count := word_count,
        slop_count := slop_count,
        slop_phrases := slop_found,
        em_dash_count := em_dash_count,
        em_dash_ratio := pyRound em_dash_ratio 2,
        sentence_count := sentences.length,
        avg_sentence_length :=
          if sentence_lengths ≠ [] then
            pyRound (((sentence_lengths.map (fun x => (x : ℚ))).sum) / n) 1
          else 0,
        sentence_variance := variance,
        hedge_count := hedge_count,
        hedge_ratio := pyRound hedge_ratio 3,
        vague_count := vague_count,
        personal_count := personal_count,
        has_code := has_code,
        has_numbers := has_numbers,
        has_links := has_links } }

end SlopDetector

namespace MemoryService

/-- A caller-style tag `user:{sub}` is never the empty string. -/
lemma user_ne_empty (s : String) : "user:" ++ s ≠ "" := by
  intro h
  have h2 := congrArg String.data h
  rw [String.data_append] at h2
  simp at h2

/-- A `user:`-prefixed tag never equals the literal tag `org:acme`. -/
lemma user_ne_org (s : String) : "user:" ++ s ≠ "org:acme" := by
  intro h
  have h2 := congrArg String.data h
  rw [String.data_append] at h2
  rw [show "user:".data = ['u', 's', 'e', 'r', ':'] from rfl,
     show "org:acme".data = ['o', 'r', 'g', ':', 'a', 'c', 'm', 'e'] from rfl] at h2
  simp at h2

/-- A `workspace:`-prefixed tag is never the empty string. -/
lemma ws_ne_empty (s : String) : "workspace:" ++ s ≠ "" := by
  intro h
  have h2 := congrArg String.data h
  rw [String.data_append] at h2
  simp at h2

/-- A `workspace:`-prefixed tag never equals the literal tag `org:acme`. -/
lemma ws_ne_org (s : String) : "workspace:" ++ s ≠ "org:acme" := by
  intro h
  have h2 := congrArg String.data h
  rw [String.data_append] at h2
  rw [show "workspace:".data
        = ['w', 'o', 'r', 'k', 's', 'p', 'a', 'c', 'e', ':'] from rfl,
     show "org:acme".data = ['o', 'r', 'g', ':', 'a', 'c', 'm', 'e'] from rfl] at h2
  simp at h2

/-- `workspace:`- and `user:`-prefixed tags are always distinct. -/
lemma ws_ne_user (s t : String) : "workspace:" ++ s ≠ "user:" ++ t := by
  intro h
  have h2 := congrArg String.data h
  rw [String.data_append, String.data_append] at h2
  rw [show "workspace:".data
        = ['w', 'o', 'r', 'k', 's', 'p', 'a', 'c', 'e', ':'] from rfl,
     show "user:".data = ['u', 's', 'e', 'r', ':'] from rfl] at h2
  simp at h2

/-- The literal tags `team:core` and `org:acme` are distinct. -/
lemma team_ne_org : "team:core" ≠ "org:acme" := by decide

/-- `team:core` never equals a `user:`-prefixed tag. -/
lemma team_ne_user (t : String) : "team:core" ≠ "user:" ++ t := by
  intro h
  have h2 := congrArg String.data h
  rw [String.data_append] at h2
  rw [show "team:core".data = ['t', 'e', 'a', 'm', ':', 'c', 'o', 'r', 'e'] from rfl,
     show "user:".data = ['u', 's', 'e', 'r', ':'] from rfl] at h2
  simp at h2

/-- `team:core` never equals a `workspace:`-prefixed tag. -/
lemma team_ne_ws (t : String) : "team:core" ≠ "workspace:" ++ t := by
  intro h
  have h2 := congrArg String.data h
  rw [String.data_append] at h2
  rw [show "team:core".data = ['t', 'e', 'a', 'm', ':', 'c', 'o', 'r', 'e'] from rfl,
     show "workspace:".data
       = ['w', 'o', 'r', 'k', 's', 'p', 'a', 'c', 'e', ':'] from rfl] at h2
  simp at h2

/-- `user:`-prefixed tags contain the `:` separator. -/
lemma colon_mem_user (s : String) : ':' ∈ ("user:" ++ s).data := by
  rw [String.data_append]; simp

/-- `workspace:`-prefixed tags contain the `:` separator. -/
lemma colon_mem_ws (s : String) : ':' ∈ ("workspace:" ++ s).data := by
  rw [String.data_append]; simp

/-- Evaluating the tag merge of claim C6 for an arbitrary caller subject and
workspace: the malformed tag is dropped, the duplicated `org:acme` is
deduplicated, first-occurrence order is preserved. -/
lemma merge_tags_example (sub w : String) :
    merge_tags ["org:acme", "user:" ++ sub, "workspace:" ++ w]
      ["org:acme", "nota-valid-tag", "team:core"]
    = ["org:acme", "user:" ++ sub, "workspace:" ++ w, "team:core"] := by
  simp [merge_tags, mergeTagsAux, user_ne_empty, user_ne_org, ws_ne_empty,
    ws_ne_org, ws_ne_user, team_ne_org, team_ne_user, team_ne_ws,
    colon_mem_user, colon_mem_ws]

end MemoryService

namespace SlopDetector

/-- `round` on rationals is monotone. -/
lemma round_monotone {x y : ℚ} (h : x ≤ y) : round x ≤ round y := by
  rw [round_eq, round_eq]
  exact Int.floor_le_floor (by linarith)

/-- `pyRound` of a non-negative rational is non-negative. -/
lemma pyRound_nonneg (q : ℚ) (n : Nat) (h : 0 ≤ q) : 0 ≤ pyRound q n := by
  unfold pyRound
  apply div_nonneg
  · have h1 : round (0 : ℚ) ≤ round (q * 10 ^ n) :=
      round_monotone (by positivity)
    rw [round_zero] at h1
    exact_mod_cast h1
  · positivity

/-- `pyRound` never exceeds a natural-number upper bound of its argument. -/
lemma pyRound_le_of_le (q : ℚ) (n m : Nat) (h : q ≤ m) : pyRound q n ≤ m := by
  unfold pyRound
  rw [div_le_iff₀ (by positivity)]
  have h1 : round (q * 10 ^ n) ≤ round ((m : ℚ) * 10 ^ n) :=
    round_monotone (mul_le_mul_of_nonneg_right h (by positivity))
  have h2 : ((m : ℚ) * 10 ^ n) = ((m * 10 ^ n : ℕ) : ℚ) := by push_cast; ring
  rw [h2, round_natCast] at h1
  calc (round (q * 10 ^ n) : ℚ) ≤ ((m * 10 ^ n : ℕ) : ℤ) := by exact_mod_cast h1
    _ = (m : ℚ) * 10 ^ n := by push_cast; ring

/-- Bounds for the rounded probability `round(min(1, X), 2)` with `X ≥ 0`. -/
lemma prob_round_bounds (X : ℚ) (hX : 0 ≤ X) :
    0 ≤ pyRound (min 1 X) 2 ∧ pyRound (min 1 X) 2 ≤ 1 := by
  constructor
  · exact pyRound_nonneg _ _ (le_min (by norm_num) hX)
  · have h := pyRound_le_of_le (min 1 X) 2 1 (by
      simpa using min_le_left (1 : ℚ) X)
    simpa using h

/-- Bounds for the rounded quality `round(min(10, q), 1)` with `q ≥ 0`. -/
lemma quality_round_bounds (q : ℚ) (hq : 0 ≤ q) :
    0 ≤ pyRound (min 10 q) 1 ∧ pyRound (min 10 q) 1 ≤ 10 := by
  constructor
  · exact pyRound_nonneg _ _ (le_min (by norm_num) hq)
  · have h := pyRound_le_of_le (min 10 q) 1 10 (by
      simpa using min_le_left (10 : ℚ) q)
    simpa using h

/-- The slop-phrase loop invariant: the accumulated count is the initial
count plus the sum of the per-phrase counts, old breakdown entries are
preserved, and every phrase with a positive count contributes its breakdown
entry. -/
lemma slopScan_fold (f : String → Nat) :
    ∀ (ps : List String) (a : Nat) (l : List (String × Nat)),
      (ps.foldl (fun acc phrase =>
          let count := f phrase
          if count > 0 then (acc.1 + count, acc.2 ++ [(phrase, count)]) else acc)
        (a, l)).1 = a + (ps.map f).sum ∧
      (∀ x ∈ l,
        x ∈ (ps.foldl (fun acc phrase =>
          let count := f phrase
          if count > 0 then (acc.1 + count, acc.2 ++ [(phrase, count)]) else acc)
          (a, l)).2) ∧
      (∀ p ∈ ps, 0 < f p →
        (p, f p) ∈ (ps.foldl (fun acc phrase =>
          let count := f phrase
          if count > 0 then (acc.1 + count, acc.2 ++ [(phrase, count)]) else acc)
          (a, l)).2) := by
  intro ps
  induction ps with
  | nil => exact fun a l => ⟨by simp, by simp, by simp⟩
  | cons p ps ih =>
    intro a l
    by_cases hp : 0 < f p
    · have hstep : (p :: ps).foldl (fun acc phrase =>
          let count := f phrase
          if count > 0 then (acc.1 + count, acc.2 ++ [(phrase, count)]) else acc)
          (a, l)
        = ps.foldl (fun acc phrase =>
          let count := f phrase
          if count > 0 then (acc.1 + count, acc.2 ++ [(phrase, count)]) else acc)
          (a + f p, l ++ [(p, f p)]) := by
        simp [hp]
      obtain ⟨h1, h2, h3⟩ := ih (a + f p) (l ++ [(p, f p)])
      refine ⟨?_, ?_, ?_⟩
      · rw [hstep, h1]
        simp
        omega
      · intro x hx
        rw [hstep]
        exact h2 x (List.mem_append_left _ hx)
      · intro q hq hq0
        rw [hstep]
        rcases List.mem_cons.mp hq with hq | hq
        · subst hq
          exact h2 (q, f q) (List.mem_append_right _ (by simp))
        · exact h3 q hq hq0
    · have hstep : (p :: ps).foldl (fun acc phrase =>
          let count := f phrase
          if count > 0 then (acc.1 + count, acc.2 ++ [(phrase, count)]) else acc)
          (a, l)
        = ps.foldl (fun acc phrase =>
          let count := f phrase
          if count > 0 then (acc.1 + count, acc.2 ++ [(phrase, count)]) else acc)
          (a, l) := by
        simp [hp]
      obtain ⟨h1, h2, h3⟩ := ih a l
      refine ⟨?_, ?_, ?_⟩
      · rw [hstep, h1]
        have : f p = 0 := by omega
        simp [this]
      · intro x hx
        rw [hstep]
        exact h2 x hx
      · intro q hq hq0
        rw [hstep]
        rcases List.mem_cons.mp hq with hq | hq
        · subst hq
          exact absurd hq0 hp
        · exact h3 q hq hq0

end SlopDetector

/-- **C5.** The Engineering-Leadership (and Scrum-Meeting) continuation
decision returns `"end"` iff `turn_count ≥ max_turns`, or `turn_count ≥ 8` and
`current_topic` is set; and whenever `max_turns < 8`, an `"end"` answer can
only come from the ceiling condition (`turn_count ≥ max_turns`), never from
the minimum-rounds branch alone. -/
theorem C5_should_continue_end_iff (s : Leadership.AIIntegrationState) :
    (Leadership.should_continue s = "end" ↔
      s.turn_count ≥ s.max_turns ∨ (s.turn_count ≥ 8 ∧ s.current_topic ≠ "")) ∧
    (s.max_turns < 8 → Leadership.should_continue s = "end" →
      s.turn_count ≥ s.max_turns) := by
  unfold Leadership.should_continue
  constructor
  · by_cases h1 : s.turn_count ≥ s.max_turns
    · simp [h1]
    · by_cases h2 : s.turn_count ≥ 8 ∧ s.current_topic ≠ ""
      · simp [h1, h2]
      · simp [h1, h2]
  · intro hlt hend
    by_cases h1 : s.turn_count ≥ s.max_turns
    · exact h1
    · by_cases h2 : s.turn_count ≥ 8 ∧ s.current_topic ≠ ""
      · have := h2.1
        omega
      · simp [h1, h2] at hend

/-- Witness for C5: a concrete state with `max_turns = 6 < 8` and
`turn_count = 6`, where the decision is `"end"` and the theorem yields the
ceiling condition. -/
theorem C5_should_continue_end_iff_witness :
    Leadership.should_continue
        { situation := "s", context := "", rag_context := "", current_topic := "t",
          director_notes := "", manager_notes := "", tech_lead_notes := "",
          architect_notes := "", recommendations := [], implementation_plan := [],
          risks_and_mitigations := [], turn_count := 6, max_turns := 6 } = "end" ∧
    (6 : Nat) ≥ 6 := by
  refine ⟨?_, ?_⟩
  · exact ((C5_should_continue_end_iff _).1).2 (Or.inl (by decide))
  · exact (C5_should_continue_end_iff
      { situation := "s", context := "", rag_context := "", current_topic := "t",
        director_notes := "", manager_notes := "", tech_lead_notes := "",
        architect_notes := "", recommendations := [], implementation_plan := [],
        risks_and_mitigations := [], turn_count := 6, max_turns := 6 }).2
      (by decide) (((C5_should_continue_end_iff _).1).2 (Or.inl (by decide)))

/-- **C3, counterexample.** Running the Article-Generation workflow to
completion from `turn_count = 0`, `max_turns = 6` (with every model call
returning `"x"`) leaves `turn_count` at 5, not 6: `assemble_article` never
increments the counter. -/
theorem C3_turn_count_counterexample :
    (ArticleGen.runArticleWorkflow (fun _ => "x")
        ArticleGen.sampleInitialState).1.turn_count = 5 ∧
    ¬ (ArticleGen.runArticleWorkflow (fun _ => "x")
        ArticleGen.sampleInitialState).1.turn_count = 6 := by
  constructor
  · rfl
  · decide

/-- **C3, amended.** Running the Article Generation workflow to completion
from an initial state with `turn_count = 0` and `max_turns = 6` makes exactly
six model calls (one per node), sets `final_article` to the Assembler's model
response (hence non-empty whenever that response is non-empty), and leaves
`turn_count` at exactly 5: the five role turns each increment the counter by
one, while the terminal Assembler node makes its model call without
incrementing. -/
theorem C3_run_to_completion (respond : Nat → String)
    (s : ArticleGen.ArticleState)
    (h0 : s.turn_count = 0) (h6 : s.max_turns = 6) :
    (ArticleGen.runArticleWorkflow respond s).1.turn_count = 5 ∧
    (ArticleGen.runArticleWorkflow respond s).2 = 6 ∧
    (ArticleGen.runArticleWorkflow respond s).1.final_article = respond 5 ∧
    (respond 5 ≠ "" →
      (ArticleGen.runArticleWorkflow respond s).1.final_article ≠ "") := by
  obtain ⟨rd, tk, ty, ti, st, tc, cc, pc, se, fa, n, m⟩ := s
  simp only at h0 h6
  subst h0 h6
  simp [ArticleGen.runArticleWorkflow, ArticleGen.technical_writer_turn,
    ArticleGen.developer_advocate_turn, ArticleGen.community_manager_turn,
    ArticleGen.product_marketer_turn, ArticleGen.seo_specialist_turn,
    ArticleGen.assemble_article]

/-- Witness for C3 (amended): the theorem applied to the concrete initial
state of the article-generation test harness. -/
theorem C3_run_to_completion_witness :
    (ArticleGen.runArticleWorkflow (fun k => "reply" ++ toString k)
        ArticleGen.sampleInitialState).1.turn_count = 5 ∧
    (ArticleGen.runArticleWorkflow (fun k => "reply" ++ toString k)
        ArticleGen.sampleInitialState).2 = 6 := by
  have h := C3_run_to_completion (fun k => "reply" ++ toString k)
    ArticleGen.sampleInitialState rfl rfl
  exact ⟨h.1, h.2.1⟩

/-- **C4.** `consensus_building` always returns `agreements`, `concerns`,
`blockers`, `recommendations` and `action_items` as empty lists, sets
`final_recommendation` to the entire model response, and therefore always sets
`consensus_reached` to `false` (it requires an empty blocker list together
with a non-empty agreement list, and the lists it computes are always empty). -/
theorem C4_consensus_building_always_false (respond : Nat → String)
    (s : ThinkTank.ThinkTankState) (c : Nat) :
    (ThinkTank.consensus_building respond (s, c)).1.agreements = [] ∧
    (ThinkTank.consensus_building respond (s, c)).1.concerns = [] ∧
    (ThinkTank.consensus_building respond (s, c)).1.blockers = [] ∧
    (ThinkTank.consensus_building respond (s, c)).1.recommendations = [] ∧
    (ThinkTank.consensus_building respond (s, c)).1.action_items = [] ∧
    (ThinkTank.consensus_building respond (s, c)).1.final_recommendation
      = respond c ∧
    (ThinkTank.consensus_building respond (s, c)).1.consensus_reached = false := by
  simp [ThinkTank.consensus_building]

/-- **C2, counterexample.** Starting a Think-Tank pass from `round_count = 0`
with the fixed `max_rounds = 3` (every model reply non-empty), the first pass
does **not** run all five role turns: the Tech Lead and Architect short-circuit
on the ceiling (their analyses stay empty), the challenge round is skipped, so
`challenges` has 0 entries rather than 5, and only 4 model calls are made. -/
theorem C2_first_pass_counterexample :
    (ThinkTank.runThinkTankPass (fun k => "reply" ++ toString k)
        (ThinkTank.sampleInitialState, 0)).1.challenges.length = 0 ∧
    ¬ (ThinkTank.runThinkTankPass (fun k => "reply" ++ toString k)
        (ThinkTank.sampleInitialState, 0)).1.challenges.length = 5 ∧
    (ThinkTank.runThinkTankPass (fun k => "reply" ++ toString k)
        (ThinkTank.sampleInitialState, 0)).1.tech_lead_analysis = "" ∧
    (ThinkTank.runThinkTankPass (fun k => "reply" ++ toString k)
        (ThinkTank.sampleInitialState, 0)).2 = 4 := by
  refine ⟨rfl, by decide, rfl, rfl⟩

/-- **C2, amended.** For every Think-Tank invocation started with
`round_count = 0` and the fixed `max_rounds = 3`, the first pass executes only
the first three role turns — Scrum Master, Product Manager, VP of Engineering,
in that order, each making one model call and storing its analysis; the Tech
Lead turn, Architect turn and challenge round all short-circuit (the counter
already equals the ceiling), so `tech_lead_analysis`, `architect_analysis` and
`challenges` are left untouched; `consensus_building` (which has no ceiling
check) still makes one model call, for 4 model calls in total. -/
theorem C2_first_pass (respond : Nat → String) (s : ThinkTank.ThinkTankState)
    (h0 : s.round_count = 0) (h3 : s.max_rounds = 3) :
    (ThinkTank.runThinkTankPass respond (s, 0)).1.scrum_master_analysis
      = respond 0 ∧
    (ThinkTank.runThinkTankPass respond (s, 0)).1.product_manager_analysis
      = respond 1 ∧
    (ThinkTank.runThinkTankPass respond (s, 0)).1.vp_eng_analysis = respond 2 ∧
    (ThinkTank.runThinkTankPass respond (s, 0)).1.tech_lead_analysis
      = s.tech_lead_analysis ∧
    (ThinkTank.runThinkTankPass respond (s, 0)).1.architect_analysis
      = s.architect_analysis ∧
    (ThinkTank.runThinkTankPass respond (s, 0)).1.challenges = s.challenges ∧
    (ThinkTank.runThinkTankPass respond (s, 0)).2 = 4 := by
  obtain ⟨si, co, ui, sm, pm, vp, tl, ar, ch, ag, cn, bl, re, ai, cr, fr, n, m, th⟩ := s
  simp only at h0 h3
  subst h0 h3
  simp [ThinkTank.runThinkTankPass, ThinkTank.scrum_master_turn,
    ThinkTank.product_manager_turn, ThinkTank.vp_eng_turn,
    ThinkTank.tech_lead_turn, ThinkTank.architect_turn,
    ThinkTank.challenge_round, ThinkTank.consensus_building]

/-- Witness for C2 (amended): the theorem applied to the concrete initial
state of the think-tank test harness. -/
theorem C2_first_pass_witness :
    (ThinkTank.runThinkTankPass (fun k => "analysis" ++ toString k)
        (ThinkTank.sampleInitialState, 0)).1.scrum_master_analysis
      = "analysis0" ∧
    (ThinkTank.runThinkTankPass (fun k => "analysis" ++ toString k)
        (ThinkTank.sampleInitialState, 0)).2 = 4 := by
  have h := C2_first_pass (fun k => "analysis" ++ toString k)
    ThinkTank.sampleInitialState rfl rfl
  exact ⟨h.1, h.2.2.2.2.2.2⟩

/-- **C1, counterexample.** `assemble_article` invoked with a state whose turn
counter has already reached the ceiling (`turn_count = max_turns = 6`) still
makes a model call and does not return the state unchanged: it sets
`final_article` to the model response. -/
theorem C1_ceiling_counterexample :
    (ArticleGen.assemble_article (fun _ => "assembled")
        ({ ArticleGen.sampleInitialState with turn_count := 6 }, 0)).2 = 1 ∧
    (ArticleGen.assemble_article (fun _ => "assembled")
        ({ ArticleGen.sampleInitialState with turn_count := 6 }, 0)).1.final_article
      = "assembled" ∧
    ¬ (ArticleGen.assemble_article (fun _ => "assembled")
        ({ ArticleGen.sampleInitialState with turn_count := 6 }, 0))
      = ({ ArticleGen.sampleInitialState with turn_count := 6 }, 0) := by
  refine ⟨rfl, rfl, by decide⟩

/-- **C1, amended.** For the four workflows, every *role-turn* node function —
the five Article-Generation roles, the four Engineering-Leadership/Scrum
roles, the five Think-Tank roles — invoked with a counter at or above its
ceiling returns the state unchanged making no model call, and when it runs it
increments the shared counter by exactly 1 (one model call), so the counter
is one global budget shared by all participants; the Think-Tank challenge
round likewise short-circuits at the ceiling and increments by exactly 1
(making five model calls); the two exceptions are the terminal Article
Assembler, which makes a model call even at the ceiling and never increments
the counter, and Think-Tank `consensus_building`, which makes a model call
even at the ceiling and always increments the counter. -/
theorem C1_ceiling_and_increment :
    RoleTurnOK (·.turn_count) (·.max_turns) ArticleGen.technical_writer_turn ∧
    RoleTurnOK (·.turn_count) (·.max_turns) ArticleGen.developer_advocate_turn ∧
    RoleTurnOK (·.turn_count) (·.max_turns) ArticleGen.community_manager_turn ∧
    RoleTurnOK (·.turn_count) (·.max_turns) ArticleGen.product_marketer_turn ∧
    RoleTurnOK (·.turn_count) (·.max_turns) ArticleGen.seo_specialist_turn ∧
    RoleTurnOK (·.turn_count) (·.max_turns) Leadership.director_turn ∧
    RoleTurnOK (·.turn_count) (·.max_turns) Leadership.manager_turn ∧
    RoleTurnOK (·.turn_count) (·.max_turns) Leadership.tech_lead_turn ∧
    RoleTurnOK (·.turn_count) (·.max_turns) Leadership.architect_turn ∧
    RoleTurnOK (·.round_count) (·.max_rounds) ThinkTank.scrum_master_turn ∧
    RoleTurnOK (·.round_count) (·.max_rounds) ThinkTank.product_manager_turn ∧
    RoleTurnOK (·.round_count) (·.max_rounds) ThinkTank.vp_eng_turn ∧
    RoleTurnOK (·.round_count) (·.max_rounds) ThinkTank.tech_lead_turn ∧
    RoleTurnOK (·.round_count) (·.max_rounds) ThinkTank.architect_turn ∧
    (∀ (respond : Nat → String) (s : ThinkTank.ThinkTankState) (c : Nat),
      (s.round_count ≥ s.max_rounds →
        ThinkTank.challenge_round respond (s, c) = (s, c)) ∧
      (s.round_count < s.max_rounds →
        (ThinkTank.challenge_round respond (s, c)).1.round_count
          = s.round_count + 1 ∧
        (ThinkTank.challenge_round respond (s, c)).2 = c + 5)) ∧
    (∀ (respond : Nat → String) (s : ArticleGen.ArticleState) (c : Nat),
      (ArticleGen.assemble_article respond (s, c)).1.turn_count = s.turn_count ∧
      (ArticleGen.assemble_article respond (s, c)).2 = c + 1) ∧
    (∀ (respond : Nat → String) (s : ThinkTank.ThinkTankState) (c : Nat),
      (ThinkTank.consensus_building respond (s, c)).1.round_count
        = s.round_count + 1 ∧
      (ThinkTank.consensus_building respond (s, c)).2 = c + 1) := by
  refine ⟨?_, ?_, ?_, ?_, ?_, ?_, ?_, ?_, ?_, ?_, ?_, ?_, ?_, ?_, ?_, ?_, ?_⟩
  case _ => intro respond s c
            exact ⟨fun h => by simp [ArticleGen.technical_writer_turn, h],
                   fun h => by simp [ArticleGen.technical_writer_turn, Nat.not_le.mpr h]⟩
  case _ => intro respond s c
            exact ⟨fun h => by simp [ArticleGen.developer_advocate_turn, h],
                   fun h => by simp [ArticleGen.developer_advocate_turn, Nat.not_le.mpr h]⟩
  case _ => intro respond s c
            exact ⟨fun h => by simp [ArticleGen.community_manager_turn, h],
                   fun h => by simp [ArticleGen.community_manager_turn, Nat.not_le.mpr h]⟩
  case _ => intro respond s c
            exact ⟨fun h => by simp [ArticleGen.product_marketer_turn, h],
                   fun h => by simp [ArticleGen.product_marketer_turn, Nat.not_le.mpr h]⟩
  case _ => intro respond s c
            exact ⟨fun h => by simp [ArticleGen.seo_specialist_turn, h],
                   fun h => by simp [ArticleGen.seo_specialist_turn, Nat.not_le.mpr h]⟩
  case _ => intro respond s c
            exact ⟨fun h => by simp [Leadership.director_turn, h],
                   fun h => by simp [Leadership.director_turn, Nat.not_le.mpr h]⟩
  case _ => intro respond s c
            exact ⟨fun h => by simp [Leadership.manager_turn, h],
                   fun h => by simp [Leadership.manager_turn, Nat.not_le.mpr h]⟩
  case _ => intro respond s c
            exact ⟨fun h => by simp [Leadership.tech_lead_turn, h],
                   fun h => by simp [Leadership.tech_lead_turn, Nat.not_le.mpr h]⟩
  case _ => intro respond s c
            exact ⟨fun h => by simp [Leadership.architect_turn, h],
                   fun h => by simp [Leadership.architect_turn, Nat.not_le.mpr h]⟩
  case _ => intro respond s c
            exact ⟨fun h => by simp [ThinkTank.scrum_master_turn, h],
                   fun h => by simp [ThinkTank.scrum_master_turn, Nat.not_le.mpr h]⟩
  case _ => intro respond s c
            exact ⟨fun h => by simp [ThinkTank.product_manager_turn, h],
                   fun h => by simp [ThinkTank.product_manager_turn, Nat.not_le.mpr h]⟩
  case _ => intro respond s c
            exact ⟨fun h => by simp [ThinkTank.vp_eng_turn, h],
                   fun h => by simp [ThinkTank.vp_eng_turn, Nat.not_le.mpr h]⟩
  case _ => intro respond s c
            exact ⟨fun h => by simp [ThinkTank.tech_lead_turn, h],
                   fun h => by simp [ThinkTank.tech_lead_turn, Nat.not_le.mpr h]⟩
  case _ => intro respond s c
            exact ⟨fun h => by simp [ThinkTank.architect_turn, h],
                   fun h => by simp [ThinkTank.architect_turn, Nat.not_le.mpr h]⟩
  case _ => intro respond s c
            exact ⟨fun h => by simp [ThinkTank.challenge_round, h],
                   fun h => by simp [ThinkTank.challenge_round, Nat.not_le.mpr h]⟩
  case _ => intro respond s c
            exact ⟨by simp [ArticleGen.assemble_article],
                   by simp [ArticleGen.assemble_article]⟩
  case _ => intro respond s c
            exact ⟨by simp [ThinkTank.consensus_building],
                   by simp [ThinkTank.consensus_building]⟩

/-- Witness for C1 (amended): the contract applied at concrete ceiling and
below-ceiling states. -/
theorem C1_ceiling_and_increment_witness :
    ArticleGen.technical_writer_turn (fun _ => "x")
        ({ ArticleGen.sampleInitialState with turn_count := 6 }, 0)
      = ({ ArticleGen.sampleInitialState with turn_count := 6 }, 0) ∧
    (ThinkTank.scrum_master_turn (fun _ => "x")
        (ThinkTank.sampleInitialState, 0)).1.round_count = 1 := by
  constructor
  · exact (C1_ceiling_and_increment.1 (fun _ => "x")
      { ArticleGen.sampleInitialState with turn_count := 6 } 0).1 (by decide)
  · exact ((C1_ceiling_and_increment.2.2.2.2.2.2.2.2.2.1 (fun _ => "x")
      ThinkTank.sampleInitialState 0).2 (by decide)).1

/-- **C6.** A `create_memory` request by an authenticated caller of
organization `acme` (no topic in the request or the claims) with tags
`["org:acme", "nota-valid-tag", "team:core"]` persists exactly the tag list
`["org:acme", "user:<sub>", "workspace:<workspace>", "team:core"]`: the tag
without a `:` separator is silently dropped, the standard tags are always
present, the caller-supplied duplicate of a standard tag is removed, and
first-occurrence order is preserved. -/
theorem C6_create_memory_tags
    (sub plan role : String) (wss : Option String) (scopes : List String)
    (claims : MemoryService.TokenClaims)
    (hclaims : claims =
      { sub := sub, org_id := "acme", plan := plan, role := role,
        scopes := scopes, workspace_slug := wss, topic := none, exp := none })
    (hscope : "memory.write" ∈ scopes)
    (content : String) (metadata : Option (List (String × String)))
    (payload : MemoryService.MemoryWriteRequest)
    (hpayload : payload =
      { content := content, metadata := metadata,
        tags := some ["org:acme", "nota-valid-tag", "team:core"],
        topic := none })
    (db : List MemoryService.MemoryRecord) (new_id : String) (now : Int) :
    ∃ record : MemoryService.MemoryRecord,
      MemoryService.create_memory payload ⟨claims, now⟩ db new_id now
        = Except.ok (record, db ++ [record]) ∧
      record.tags = ["org:acme", "user:" ++ sub,
        "workspace:" ++ claims.workspace, "team:core"] := by
  subst hclaims hpayload
  refine ⟨{ memory_id := new_id, org_id := "acme", user_id := sub,
            workspace := MemoryService.TokenClaims.workspace
              { sub := sub, org_id := "acme", plan := plan, role := role,
                scopes := scopes, workspace_slug := wss, topic := none,
                exp := none },
            topic := none, content := content, metadata := metadata.getD [],
            tags := ["org:acme", "user:" ++ sub,
              "workspace:" ++ MemoryService.TokenClaims.workspace
                { sub := sub, org_id := "acme", plan := plan, role := role,
                  scopes := scopes, workspace_slug := wss, topic := none,
                  exp := none }, "team:core"],
            created_at := now, updated_at := now }, ?_, rfl⟩
  simp [MemoryService.create_memory, MemoryService.TokenClaims.ensure_scope,
    hscope, MemoryService.pyOrStr, MemoryService.build_standard_tags,
    MemoryService.insert_memory,
    show ("org:" ++ "acme" : String) = "org:acme" from rfl,
    MemoryService.merge_tags_example]

/-- Witness for C6: a concrete caller (`sub = "u1"`, workspace slug absent so
the workspace defaults to `"default"`). -/
theorem C6_create_memory_tags_witness :
    ∃ record : MemoryService.MemoryRecord,
      MemoryService.create_memory
        { content := "note", metadata := none,
          tags := some ["org:acme", "nota-valid-tag", "team:core"],
          topic := none }
        ⟨{ sub := "u1", org_id := "acme", plan := "pro", role := "admin",
           scopes := ["memory.write"], workspace_slug := none, topic := none,
           exp := none }, 0⟩ [] "id-1" 0
        = Except.ok (record, [] ++ [record]) ∧
      record.tags = ["org:acme", "user:" ++ "u1",
        "workspace:" ++
          MemoryService.TokenClaims.workspace
            { sub := "u1", org_id := "acme", plan := "pro", role := "admin",
              scopes := ["memory.write"], workspace_slug := none,
              topic := none, exp := none }, "team:core"] := by
  exact C6_create_memory_tags "u1" "pro" "admin" none ["memory.write"] _ rfl
    (by decide) "note" none _ rfl [] "id-1" 0

/-- **C7.** A request whose bearer token is correctly signed and structurally
valid (the decode oracle yields the claims) but whose `exp` is at or before
the current time is rejected with HTTP 401 "Token has expired", even though
the signature was valid. -/
theorem C7_expired_token_rejected (claims : MemoryService.TokenClaims)
    (now e : Int) (hexp : claims.exp = some e) (hle : e ≤ now) :
    MemoryService.decode_jwt (some claims) now
      = Except.error ⟨401, "Token has expired"⟩ := by
  simp [MemoryService.decode_jwt, hexp, hle]

/-- Witness for C7: a validly-decoded token whose expiry is 1 second in the
past. -/
theorem C7_expired_token_rejected_witness :
    MemoryService.decode_jwt
      (some { sub := "u1", org_id := "acme", plan := "pro", role := "admin",
              scopes := ["memory.read"], workspace_slug := none, topic := none,
              exp := some 99 }) 100
      = Except.error ⟨401, "Token has expired"⟩ :=
  C7_expired_token_rejected _ 100 99 rfl (by decide)

/-- **C8.** Partition isolation of `GET /v1/memory/{id}`: for a stored record
in organization A, workspace `"default"` (with ids unique, as the SQLite
primary key guarantees), a request with valid claims for organization A but
workspace `"other"` and the `memory.read` scope returns 404 — the repository
lookup requires id, org id and workspace all to match, and the endpoint maps
an absent record to 404. -/
theorem C8_partition_isolation
    (db : List MemoryService.MemoryRecord) (rec : MemoryService.MemoryRecord)
    (hid : ∀ r ∈ db, r.memory_id = rec.memory_id → r = rec)
    (_hmem : rec ∈ db) (hws : rec.workspace = "default")
    (claims : MemoryService.TokenClaims) (horg : claims.org_id = rec.org_id)
    (hwss : claims.workspace_slug = some "other")
    (hscope : "memory.read" ∈ claims.scopes) (now : Int) :
    MemoryService.get_memory_endpoint rec.memory_id ⟨claims, now⟩ db
      = Except.error ⟨404, "Memory not found"⟩ := by
  have hw : claims.workspace = "other" := by
    simp [MemoryService.TokenClaims.workspace, hwss]
  have hnone : MemoryService.get_memory db claims.org_id claims.workspace
      rec.memory_id = none := by
    rw [hw, horg]
    unfold MemoryService.get_memory
    refine List.find?_eq_none.mpr ?_
    intro r hr
    simp only [Bool.and_eq_true, beq_iff_eq]
    rintro ⟨⟨h1, _⟩, h3⟩
    have hreq := hid r hr h1
    rw [hreq, hws] at h3
    exact absurd h3 (by decide)
  simp [MemoryService.get_memory_endpoint, MemoryService.TokenClaims.ensure_scope,
    hscope, hnone]

/-- Witness for C8: a one-record table under (org `acme`, workspace
`default`), read with credentials for (org `acme`, workspace `other`). -/
theorem C8_partition_isolation_witness :
    MemoryService.get_memory_endpoint "id-1"
      ⟨{ sub := "u1", org_id := "acme", plan := "pro", role := "admin",
         scopes := ["memory.read"], workspace_slug := some "other",
         topic := none, exp := none }, 0⟩
      [{ memory_id := "id-1", org_id := "acme", user_id := "u1",
         workspace := "default", topic := none, content := "note",
         metadata := [], tags := [], created_at := 0, updated_at := 0 }]
      = Except.error ⟨404, "Memory not found"⟩ := by
  refine C8_partition_isolation _
    { memory_id := "id-1", org_id := "acme", user_id := "u1",
      workspace := "default", topic := none, content := "note",
      metadata := [], tags := [], created_at := 0, updated_at := 0 }
    ?_ (by simp) rfl _ rfl rfl (by simp) 0
  intro r hr h1
  simpa using hr

/-- **C9, counterexample.** The fixed slop-phrase list of the detector has 22
entries, not 20 (the source keeps `delve`/`delve into`/`delving`,
`leverage`/`leveraging` and `utilize`/`utilization` as separate entries). -/
theorem C9_twenty_phrases_counterexample :
    SlopDetector.slop_phrases.length = 22 ∧
    ¬ SlopDetector.slop_phrases.length = 20 := by
  constructor
  · rfl
  · decide

/-- **C9, amended.** For every input text, `slop_count` is the total number
of case-insensitive (lowercased-text) substring occurrences — Python
`str.count`, not tokenized — of the phrases in the fixed list of exactly 22
slop phrases, and any phrase with a positive count appears, with its count,
in the per-phrase breakdown list. -/
theorem C9_slop_count (text : String) :
    (SlopDetector.detect_ai_slop text).metrics.slop_count
      = (SlopDetector.slop_phrases.map
          (fun p => SlopDetector.pyCount (SlopDetector.pyLower text) p)).sum ∧
    ∀ p ∈ SlopDetector.slop_phrases,
      0 < SlopDetector.pyCount (SlopDetector.pyLower text) p →
      (p, SlopDetector.pyCount (SlopDetector.pyLower text) p)
        ∈ (SlopDetector.detect_ai_slop text).metrics.slop_phrases := by
  have h := SlopDetector.slopScan_fold
    (fun p => SlopDetector.pyCount (SlopDetector.pyLower text) p)
    SlopDetector.slop_phrases 0 []
  constructor
  · show (SlopDetector.slopScan (SlopDetector.pyLower text)).1 = _
    simpa using h.1
  · intro p hp hpos
    show (p, SlopDetector.pyCount (SlopDetector.pyLower text) p)
      ∈ (SlopDetector.slopScan (SlopDetector.pyLower text)).2
    exact h.2.2 p hp hpos

/-- Witness for C9 (amended): the text `"We leverage tools."` contains
`"leverage"` once, so the breakdown contains `("leverage", 1)` and the
total is 1. -/
theorem C9_slop_count_witness :
    (SlopDetector.detect_ai_slop "We leverage tools.").metrics.slop_count = 1 ∧
    ("leverage", 1)
      ∈ (SlopDetector.detect_ai_slop "We leverage tools.").metrics.slop_phrases := by
  constructor
  · rw [(C9_slop_count "We leverage tools.").1]
    decide
  · have hc : SlopDetector.pyCount
        (SlopDetector.pyLower "We leverage tools.") "leverage" = 1 := by decide
    have h := (C9_slop_count "We leverage tools.").2 "leverage" (by decide)
      (by rw [hc]; decide)
    rw [hc] at h
    exact h

/-- **C10.** `detect_ai_slop` is total (a Lean function over all strings,
including the empty string and texts with no sentence-terminal punctuation:
every division of the source — em-dash ratio, hedge ratio, average sentence
length — is guarded by a zero/empty check, reproduced verbatim in the
embedding), and its scores are bounded: the returned `ai_probability` always
lies in `[0, 1]` and the returned `quality_score` always lies in `[0, 10]`. -/
theorem C10_detector_bounded (text : String) :
    0 ≤ (SlopDetector.detect_ai_slop text).ai_probability ∧
    (SlopDetector.detect_ai_slop text).ai_probability ≤ 1 ∧
    0 ≤ (SlopDetector.detect_ai_slop text).quality_score ∧
    (SlopDetector.detect_ai_slop text).quality_score ≤ 10 := by
  simp only [SlopDetector.detect_ai_slop]
  refine ⟨(SlopDetector.prob_round_bounds _ ?_).1,
          (SlopDetector.prob_round_bounds _ ?_).2,
          (SlopDetector.quality_round_bounds _ ?_).1,
          (SlopDetector.quality_round_bounds _ ?_).2⟩
  case _ =>
    apply add_nonneg (add_nonneg ?_ ?_) ?_
    · positivity
    · exact le_min (by norm_num) (by positivity)
    · split_ifs <;> norm_num
  case _ =>
    apply add_nonneg (add_nonneg ?_ ?_) ?_
    · positivity
    · exact le_min (by norm_num) (by positivity)
    · split_ifs <;> norm_num
  case _ =>
    apply add_nonneg (add_nonneg (add_nonneg (add_nonneg ?_ ?_) ?_) ?_) ?_
    · exact le_max_left 0 _
    · split_ifs <;> norm_num
    · split_ifs <;> norm_num
    · split_ifs <;> norm_num
    · split_ifs <;> norm_num
  case _ =>
    apply add_nonneg (add_nonneg (add_nonneg (add_nonneg ?_ ?_) ?_) ?_) ?_
    · exact le_max_left 0 _
    · split_ifs <;> norm_num
    · split_ifs <;> norm_num
    · split_ifs <;> norm_num
    · split_ifs <;> norm_num
